import Mathlib

/-!
Verification of `main.py` of the tailscale-dns-sync repository.

The program fetches Tailscale devices, fetches DNSPod records for a domain,
and reconciles them: it creates an A record for every device name missing
from the record index, updates the first default-line record when its type
or value differs from the device address, and does nothing when they match.

The embedding models each HTTP exchange by its observable outcome
(`HttpOutcome`): transport failure, JSON-decode failure, or a decoded body.
The DNSPod side of the world is a `DnsEnv` giving the outcome of each
possible request; the functions below mirror the Python functions
line by line and additionally record the list of DNS API calls they issue,
so that claims about which calls happen can be stated as trace equalities.
-/

namespace TsDnsSync

/-- Python `str.replace` on character lists, driven by a fuel counter that is
always at least the length of the scanned list.  At each position, if the
(non-empty) pattern `old` is a prefix of the remaining input it is replaced
by `new` and the scan resumes after the matched characters; otherwise one
character is kept.  This is the left-to-right, non-overlapping,
replace-all semantics of Python. -/
def pyReplaceFuel (old new : List Char) : Nat → List Char → List Char
  | _, [] => []
  | 0, s => s
  | fuel + 1, c :: s =>
    if old ≠ [] ∧ old <+: (c :: s) then
      new ++ pyReplaceFuel old new fuel ((c :: s).drop old.length)
    else
      c :: pyReplaceFuel old new fuel s

/-- Python `s.replace(old, new)` on character lists.  An empty pattern
inserts `new` before every character and at the end, as Python does. -/
def pyReplaceL (s old new : List Char) : List Char :=
  if old = [] then new ++ s.foldr (fun c acc => c :: (new ++ acc)) []
  else pyReplaceFuel old new s.length s

/-- Python `s.replace(old, new)` on strings. -/
def pyReplace (s old new : String) : String :=
  ⟨pyReplaceL s.data old.data new.data⟩

/-- A Tailscale device as built by `get_tailscale_devices`: short name and
first listed address (source: class `Device`). -/
structure Device where
  name : String
  ip : String
deriving DecidableEq

/-- One DNSPod record as consumed by `sync_devices_to_domain`: the fields
`name`, `type`, `value`, `line`, `id` of the provider's record object. -/
structure DnsRecord where
  name : String
  rtype : String
  value : String
  line : String
  id : String
deriving DecidableEq

/-- The outcome of one HTTP exchange, as the Python code observes it:
an exception from the transport or a non-2xx status (`transportError`),
a body that is not valid JSON (`decodeError`), or a decoded body. -/
inductive HttpOutcome (β : Type) where
  | transportError (detail : String)
  | decodeError
  | ok (body : β)
deriving DecidableEq

/-- The error taxonomy of the program.  The Python code signals errors as
strings; each constructor stands for one distinct error string built by the
source, keeping the data the string interpolates.  `nameErrorIp` is the
uncaught `NameError` raised by evaluating the unbound name `ip` at line 151
of `main.py`; `indexErrorAddresses` is the uncaught `IndexError` from
`d['addresses'][0]` on an empty address list. -/
inductive Err where
  | tailscaleTransport (detail : String)
  | tailscaleDecode
  | dnspodTransport (detail : String)
  | dnspodDecode
  | providerRejected (code msg : Option String)
  | nameErrorIp
  | indexErrorAddresses
deriving DecidableEq

/-- A decoded DNSPod response envelope: `status.code`, `status.message`
(absent keys give `none`, matching dict `.get`), and the `records` payload
used by `Record.List`. -/
structure DnspodEnvelope where
  statusCode : Option String
  statusMessage : Option String
  records : List DnsRecord
deriving DecidableEq

/-- `Dnspod._request` after the HTTP exchange: propagate transport and
decode failures, then check the envelope; a status code other than the
string `'1'` is rejected with the provider's code and message. -/
def dnspodRequest (resp : HttpOutcome DnspodEnvelope) : Except Err DnspodEnvelope :=
  match resp with
  | .transportError detail => .error (.dnspodTransport detail)
  | .decodeError => .error .dnspodDecode
  | .ok envl =>
    if envl.statusCode = some "1" then .ok envl
    else .error (.providerRejected envl.statusCode envl.statusMessage)

/-- `Dnspod.get_domain_records`: a `Record.List` exchange through
`_request`, returning the record list.  The Python code groups the records
into a dict keyed by name; lookups into that dict are modelled below by
filtering this list on the name, which preserves per-name order. -/
def get_domain_records (resp : HttpOutcome DnspodEnvelope) : Except Err (List DnsRecord) :=
  match dnspodRequest resp with
  | .error e => .error e
  | .ok envl => .ok envl.records

/-- `Dnspod.add_record_a`: a `Record.Create` exchange through `_request`;
returns the error if any, `none` on success. -/
def add_record_a (resp : HttpOutcome DnspodEnvelope) : Option Err :=
  match dnspodRequest resp with
  | .error e => some e
  | .ok _ => none

/-- `Dnspod.modify_record_a`: a `Record.Modify` exchange through
`_request`; returns the error if any, `none` on success. -/
def modify_record_a (resp : HttpOutcome DnspodEnvelope) : Option Err :=
  match dnspodRequest resp with
  | .error e => some e
  | .ok _ => none

/-- The DNSPod side of the world: the outcome of the `Record.List` request
issued by `sync_devices_to_domain`, and the outcome of every possible
`Record.Create` (keyed by ip, domain, sub_domain) and `Record.Modify`
(keyed by ip, domain, sub_domain, record_id) request. -/
structure DnsEnv where
  listResponse : HttpOutcome DnspodEnvelope
  createResponse : String → String → String → HttpOutcome DnspodEnvelope
  modifyResponse : String → String → String → String → HttpOutcome DnspodEnvelope

/-- One DNS API call issued by the program, with its arguments. -/
inductive Call where
  | listRecords (domain : String) (subDomain : Option String)
  | create (ip domain subDomain : String)
  | modify (ip domain subDomain recordId : String)
deriving DecidableEq

/-- The provider's default routing line, `'默认'` in the source. -/
def defaultLine : String := "默认"

/-- The record name composed for a device:
`f'&device.name;.&sub_domain;'` when `sub_domain` is truthy, else
`device.name` (a Python empty string is falsy, hence the emptiness test). -/
def recordName (subDomain : Option String) (d : Device) : String :=
  match subDomain with
  | some sd => if sd = "" then d.name else d.name ++ "." ++ sd
  | none => d.name

/-- The body of the per-device loop of `Dnspod.sync_devices_to_domain`
(lines 137-164 of `main.py`), given the fetched record list `recs`.
Returns the loop outcome for this device (an error aborts the loop) and
the DNS API calls issued for it.  The branch for a present name with no
default-line record evaluates the unbound name `ip`, raising `NameError`
before any request is made. -/
def syncDevice (env : DnsEnv) (recs : List DnsRecord) (domain : String)
    (subDomain : Option String) (d : Device) : Option Err × List Call :=
  let rn := recordName subDomain d
  if recs.filter (fun r => r.name == rn) = [] then
    (add_record_a (env.createResponse d.ip domain rn), [Call.create d.ip domain rn])
  else
    match (recs.filter (fun r => r.name == rn)).filter (fun r => r.line == defaultLine) with
    | [] => (some Err.nameErrorIp, [])
    | r :: _ =>
      if r.rtype = "A" ∧ r.value = d.ip then
        (none, [])
      else
        (modify_record_a (env.modifyResponse d.ip domain rn r.id),
         [Call.modify d.ip domain rn r.id])

/-- The device loop of `sync_devices_to_domain`: process devices in order,
short-circuiting on the first error; the trace is the concatenation of the
per-device traces up to and including the failing device. -/
def syncLoop (env : DnsEnv) (recs : List DnsRecord) (domain : String)
    (subDomain : Option String) : List Device → Option Err × List Call
  | [] => (none, [])
  | d :: ds =>
    let p := syncDevice env recs domain subDomain d
    match p.1 with
    | some e => (some e, p.2)
    | none =>
      let q := syncLoop env recs domain subDomain ds
      (q.1, p.2 ++ q.2)

/-- `Dnspod.sync_devices_to_domain`: fetch the record index (one
`Record.List` call), propagating its failure before any device is
processed, then run the device loop. -/
def sync_devices_to_domain (env : DnsEnv) (devices : List Device) (domain : String)
    (subDomain : Option String) : Option Err × List Call :=
  match get_domain_records env.listResponse with
  | .error e => (some e, [Call.listRecords domain subDomain])
  | .ok recs =>
    let p := syncLoop env recs domain subDomain devices
    (p.1, Call.listRecords domain subDomain :: p.2)

/-- One device object of the Tailscale API response body: the raw
fully-qualified `name` and the `addresses` list. -/
structure TsDeviceJson where
  name : String
  addresses : List String
deriving DecidableEq

/-- A decoded Tailscale API response body: the `devices` key, `none` when
the key is absent (dict `.get` with default `[]`). -/
structure TsBody where
  devices : Option (List TsDeviceJson)
deriving DecidableEq

/-- The domain suffix derived from the tailnet:
`tailnet.replace('@', '.')`. -/
def tailnetDomain (tailnet : String) : String :=
  pyReplace tailnet "@" "."

/-- The device-name normalization of `get_tailscale_devices`:
`d['name'].replace(f'.&domain;', '')` — every occurrence of `.` followed by
the derived domain is removed, not only a trailing suffix. -/
def normalizeDeviceName (tailnet rawName : String) : String :=
  pyReplace rawName ("." ++ tailnetDomain tailnet) ""

/-- The device-building loop of `get_tailscale_devices`: for each device
object, normalize the name and take the first address; an empty address
list raises `IndexError` at that device, aborting the run. -/
def buildDevices (tailnet : String) : List TsDeviceJson → Except Err (List Device)
  | [] => .ok []
  | dj :: rest =>
    match dj.addresses with
    | [] => .error .indexErrorAddresses
    | ipAddr :: _ =>
      match buildDevices tailnet rest with
      | .error e => .error e
      | .ok ds => .ok (⟨normalizeDeviceName tailnet dj.name, ipAddr⟩ :: ds)

/-- `get_tailscale_devices`: propagate transport and decode failures of the
inventory exchange, then build the device list from the `devices` key
(absent key means the empty list). -/
def get_tailscale_devices (tailnet : String) (resp : HttpOutcome TsBody) :
    Except Err (List Device) :=
  match resp with
  | .transportError detail => .error (.tailscaleTransport detail)
  | .decodeError => .error .tailscaleDecode
  | .ok body => buildDevices tailnet (body.devices.getD [])

/-- `main`: fetch the inventory; on failure report that error having issued
no DNS call, otherwise run `sync_devices_to_domain` and report its result.
The pair is the reported error (if any) and the DNS API call trace. -/
def main (tailnet : String) (tsResp : HttpOutcome TsBody) (env : DnsEnv)
    (domain : String) (subDomain : Option String) : Option Err × List Call :=
  match get_tailscale_devices tailnet tsResp with
  | .error e => (some e, [])
  | .ok devices => sync_devices_to_domain env devices domain subDomain

/-- Written from the spec's words, for comparison with
`normalizeDeviceName` only: strip the trailing `.` + domain suffix from a
raw name when present, leaving the rest of the name unchanged. -/
def specStripTrailingSuffix (domain rawName : String) : String :=
  let pattern := "." ++ domain
  if pattern.data <:+ rawName.data then
    ⟨rawName.data.take (rawName.data.length - pattern.data.length)⟩
  else rawName

/-! ### Helper lemmas shared by the claim theorems -/

/-- The empty list is unchanged by `pyReplaceFuel` for any fuel. -/
lemma pyReplaceFuel_nil (old new : List Char) (fuel : Nat) :
    pyReplaceFuel old new fuel [] = [] := by
  cases fuel <;> rfl

/-- A successful `Record.List` envelope yields its record list. -/
lemma get_domain_records_ok (envl : DnspodEnvelope) (hs : envl.statusCode = some "1") :
    get_domain_records (.ok envl) = .ok envl.records := by
  simp [get_domain_records, dnspodRequest, hs]

/-- A device whose first default-line record already has type `A` and the
device's address produces no error and no DNS call. -/
lemma syncDevice_noop (env : DnsEnv) (recs : List DnsRecord) (domain : String)
    (subDomain : Option String) (d : Device) (r : DnsRecord) (rest : List DnsRecord)
    (hd : ((recs.filter (fun x => x.name == recordName subDomain d)).filter
      (fun x => x.line == defaultLine)) = r :: rest)
    (ht : r.rtype = "A") (hv : r.value = d.ip) :
    syncDevice env recs domain subDomain d = (none, []) := by
  have hmat : recs.filter (fun x => x.name == recordName subDomain d) ≠ [] := by
    intro h0
    rw [h0] at hd
    simp at hd
  simp only [syncDevice]
  rw [if_neg hmat, hd]
  simp [ht, hv]

/-- Splitting the device loop at an error-free prefix: the remaining
devices are processed after the prefix and the traces concatenate. -/
lemma syncLoop_append (env : DnsEnv) (recs : List DnsRecord) (domain : String)
    (subDomain : Option String) (xs ys : List Device) (cs : List Call)
    (h : syncLoop env recs domain subDomain xs = (none, cs)) :
    syncLoop env recs domain subDomain (xs ++ ys) =
      ((syncLoop env recs domain subDomain ys).1,
        cs ++ (syncLoop env recs domain subDomain ys).2) := by
  induction xs generalizing cs with
  | nil =>
    simp only [syncLoop] at h
    have h2 : ([] : List Call) = cs := congrArg Prod.snd h
    subst h2
    simp
  | cons a xs ih =>
    rcases hsd : syncDevice env recs domain subDomain a with ⟨res, calls⟩
    cases res with
    | some e =>
      exfalso
      simp only [syncLoop, hsd] at h
      exact Option.noConfusion (congrArg Prod.fst h)
    | none =>
      rcases hq : syncLoop env recs domain subDomain xs with ⟨qr, qc⟩
      simp only [syncLoop, hsd, hq] at h
      have h1 : qr = none := congrArg Prod.fst h
      have h2 : calls ++ qc = cs := congrArg Prod.snd h
      subst h2
      have hq0 : syncLoop env recs domain subDomain xs = (none, qc) := by
        rw [hq, h1]
      have hih := ih qc hq0
      simp only [List.cons_append, syncLoop, hsd, hih]
      simp [hih, List.append_assoc]

/-- A converged device list is processed with no error and no call. -/
lemma syncLoop_converged (env : DnsEnv) (recs : List DnsRecord) (domain : String)
    (subDomain : Option String) :
    ∀ devices : List Device,
      (∀ d ∈ devices, ∃ r : DnsRecord,
        ((recs.filter (fun x => x.name == recordName subDomain d)).filter
          (fun x => x.line == defaultLine)) = [r] ∧ r.rtype = "A" ∧ r.value = d.ip) →
      syncLoop env recs domain subDomain devices = (none, []) := by
  intro devices
  induction devices with
  | nil => intro _; rfl
  | cons d ds ih =>
    intro h
    obtain ⟨r, hfil, ht, hv⟩ := h d (by simp)
    have hdev := syncDevice_noop env recs domain subDomain d r [] hfil ht hv
    have hds := ih (fun x hx => h x (by simp [hx]))
    simp [syncLoop, hdev, hds]

/-! ### Claim theorems -/

/-- Claim C1: an Endpoint whose composed record name matches exactly one
default-routing-line record whose type or value differs from
`A` / the Endpoint's address triggers exactly one `update_a_record`
(`Record.Modify`) call carrying the new address and that record's id, and
no `create_a_record` call. -/
theorem c1_changed_address_update (env : DnsEnv) (recs : List DnsRecord) (domain : String)
    (subDomain : Option String) (d : Device) (r : DnsRecord)
    (hd : ((recs.filter (fun x => x.name == recordName subDomain d)).filter
      (fun x => x.line == defaultLine)) = [r])
    (hne : ¬ (r.rtype = "A" ∧ r.value = d.ip)) :
    syncDevice env recs domain subDomain d =
      (modify_record_a (env.modifyResponse d.ip domain (recordName subDomain d) r.id),
       [Call.modify d.ip domain (recordName subDomain d) r.id]) := by
  have hmat : recs.filter (fun x => x.name == recordName subDomain d) ≠ [] := by
    intro h0
    rw [h0] at hd
    simp at hd
  simp only [syncDevice]
  rw [if_neg hmat, hd]
  simp [hne]

/-- Witness for C1 at a concrete input: a record with a stale value is
updated with the device's address and the record's id. -/
theorem c1_witness :
    syncDevice ⟨.ok ⟨some "1", none, []⟩,
        fun _ _ _ => .ok ⟨some "1", none, []⟩,
        fun _ _ _ _ => .ok ⟨some "1", none, []⟩⟩
      [⟨"web", "A", "1.2.3.4", "默认", "42"⟩] "example.com" none ⟨"web", "100.64.0.9"⟩ =
      (modify_record_a ((fun (_ _ _ _ : String) =>
          (.ok ⟨some "1", none, []⟩ : HttpOutcome DnspodEnvelope))
          "100.64.0.9" "example.com" "web" "42"),
       [Call.modify "100.64.0.9" "example.com" "web" "42"]) :=
  c1_changed_address_update _ [⟨"web", "A", "1.2.3.4", "默认", "42"⟩] "example.com" none
    ⟨"web", "100.64.0.9"⟩ ⟨"web", "A", "1.2.3.4", "默认", "42"⟩ (by decide) (by decide)

/-- Claim C2: an Endpoint whose composed record name has no entry in the
record index triggers exactly one `create_a_record` (`Record.Create`) call
with the Endpoint's own address, and no update call. -/
theorem c2_new_endpoint_create (env : DnsEnv) (recs : List DnsRecord) (domain : String)
    (subDomain : Option String) (d : Device)
    (hm : recs.filter (fun x => x.name == recordName subDomain d) = []) :
    syncDevice env recs domain subDomain d =
      (add_record_a (env.createResponse d.ip domain (recordName subDomain d)),
       [Call.create d.ip domain (recordName subDomain d)]) := by
  simp only [syncDevice]
  rw [if_pos hm]

/-- Witness for C2 at a concrete input: an empty record index yields one
create call with the device's own address. -/
theorem c2_witness :
    syncDevice ⟨.ok ⟨some "1", none, []⟩,
        fun _ _ _ => .ok ⟨some "1", none, []⟩,
        fun _ _ _ _ => .ok ⟨some "1", none, []⟩⟩
      [] "example.com" none ⟨"web", "100.64.0.9"⟩ =
      (add_record_a ((fun (_ _ _ : String) =>
          (.ok ⟨some "1", none, []⟩ : HttpOutcome DnspodEnvelope))
          "100.64.0.9" "example.com" "web"),
       [Call.create "100.64.0.9" "example.com" "web"]) :=
  c2_new_endpoint_create _ [] "example.com" none ⟨"web", "100.64.0.9"⟩ (by decide)

/-- Claim C4: an Endpoint matching an existing default-routing-line record
of type `A` whose value equals the Endpoint's address triggers zero create
and zero update calls. -/
theorem c4_unchanged_noop (env : DnsEnv) (recs : List DnsRecord) (domain : String)
    (subDomain : Option String) (d : Device) (r : DnsRecord) (rest : List DnsRecord)
    (hd : ((recs.filter (fun x => x.name == recordName subDomain d)).filter
      (fun x => x.line == defaultLine)) = r :: rest)
    (ht : r.rtype = "A") (hv : r.value = d.ip) :
    syncDevice env recs domain subDomain d = (none, []) :=
  syncDevice_noop env recs domain subDomain d r rest hd ht hv

/-- Witness for C4 at a concrete input: a matching default-line A record
yields no error and no call. -/
theorem c4_witness :
    syncDevice ⟨.ok ⟨some "1", none, []⟩,
        fun _ _ _ => .ok ⟨some "1", none, []⟩,
        fun _ _ _ _ => .ok ⟨some "1", none, []⟩⟩
      [⟨"web", "A", "100.64.0.9", "默认", "42"⟩] "example.com" none ⟨"web", "100.64.0.9"⟩ =
      (none, []) :=
  c4_unchanged_noop _ [⟨"web", "A", "100.64.0.9", "默认", "42"⟩] "example.com" none
    ⟨"web", "100.64.0.9"⟩ ⟨"web", "A", "100.64.0.9", "默认", "42"⟩ [] (by decide) rfl rfl

/-- A DNS environment whose record list holds one record for `host` on a
non-default routing line, exercising the fallback-create branch. -/
def c3Env : DnsEnv where
  listResponse := .ok ⟨some "1", none, [⟨"host", "A", "1.2.3.4", "联通", "10"⟩]⟩
  createResponse := fun _ _ _ => .ok ⟨some "1", none, []⟩
  modifyResponse := fun _ _ _ _ => .ok ⟨some "1", none, []⟩

/-- Claim C3 (code evaluated at the failing input): when the matched
records exist but none is on the default routing line, the run aborts with
the `NameError` from the unbound name `ip` at line 151 of `main.py` and no
create call carrying the Endpoint's address is issued. -/
theorem c3_no_default_line_name_error :
    sync_devices_to_domain c3Env [⟨"host", "100.64.0.1"⟩] "example.com" none =
      (some Err.nameErrorIp, [Call.listRecords "example.com" none]) := rfl

/-- Claim C5: idempotence at convergence — when each Endpoint's composed
record name already maps to exactly one default-routing-line record of
type `A` whose value equals that Endpoint's address, `sync` issues zero
create and zero update calls (its only DNS call is the `Record.List`
fetch) and returns success. -/
theorem c5_idempotence (env : DnsEnv) (devices : List Device) (domain : String)
    (subDomain : Option String) (envl : DnspodEnvelope)
    (hl : env.listResponse = .ok envl) (hs : envl.statusCode = some "1")
    (hconv : ∀ d ∈ devices, ∃ r : DnsRecord,
      ((envl.records.filter (fun x => x.name == recordName subDomain d)).filter
        (fun x => x.line == defaultLine)) = [r] ∧ r.rtype = "A" ∧ r.value = d.ip) :
    sync_devices_to_domain env devices domain subDomain =
      (none, [Call.listRecords domain subDomain]) := by
  have hrecs : get_domain_records env.listResponse = .ok envl.records := by
    rw [hl]
    exact get_domain_records_ok envl hs
  have hloop := syncLoop_converged env envl.records domain subDomain devices hconv
  simp [sync_devices_to_domain, hrecs, hloop]

/-- A converged DNS environment: one default-line A record per device name,
already carrying the device's address. -/
def c5Env : DnsEnv where
  listResponse := .ok ⟨some "1", none, [⟨"web", "A", "100.64.0.5", "默认", "101"⟩]⟩
  createResponse := fun _ _ _ => .ok ⟨some "1", none, []⟩
  modifyResponse := fun _ _ _ _ => .ok ⟨some "1", none, []⟩

/-- Witness for C5 at a concrete converged state: the run makes only the
list call and succeeds. -/
theorem c5_witness :
    sync_devices_to_domain c5Env [⟨"web", "100.64.0.5"⟩] "example.com" none =
      (none, [Call.listRecords "example.com" none]) :=
  c5_idempotence c5Env [⟨"web", "100.64.0.5"⟩] "example.com" none
    ⟨some "1", none, [⟨"web", "A", "100.64.0.5", "默认", "101"⟩]⟩ rfl rfl
    (by
      intro d hd
      rw [List.mem_singleton] at hd
      subst hd
      exact ⟨⟨"web", "A", "100.64.0.5", "默认", "101"⟩, by decide, rfl, rfl⟩)

/-- Claim C6: fail-fast on a write error — when every Endpoint before the
Nth completes without error and the Nth Endpoint's processing returns an
error, `sync` returns that error and the trace stops with the Nth
Endpoint's calls: no lookup, create or update happens for any later
Endpoint. -/
theorem c6_fail_fast_write (env : DnsEnv) (domain : String) (subDomain : Option String)
    (recs : List DnsRecord) (pre post : List Device) (d : Device) (e : Err)
    (preCalls dCalls : List Call)
    (hr : get_domain_records env.listResponse = .ok recs)
    (hpre : syncLoop env recs domain subDomain pre = (none, preCalls))
    (hd : syncDevice env recs domain subDomain d = (some e, dCalls)) :
    sync_devices_to_domain env (pre ++ d :: post) domain subDomain =
      (some e, Call.listRecords domain subDomain :: (preCalls ++ dCalls)) := by
  have h1 := syncLoop_append env recs domain subDomain pre (d :: post) preCalls hpre
  have h2 : syncLoop env recs domain subDomain (d :: post) = (some e, dCalls) := by
    simp [syncLoop, hd]
  rw [h2] at h1
  simp [sync_devices_to_domain, hr, h1]

/-- A DNS environment whose `Record.Create` requests are rejected by the
provider, failing the first device that needs a create. -/
def c6Env : DnsEnv where
  listResponse := .ok ⟨some "1", none, []⟩
  createResponse := fun _ _ _ => .ok ⟨some "-15", some "domain not exist", []⟩
  modifyResponse := fun _ _ _ _ => .ok ⟨some "1", none, []⟩

/-- Witness for C6 at a concrete input: the first device's create call is
rejected, the run reports that error, and the second device is never
processed. -/
theorem c6_witness :
    sync_devices_to_domain c6Env
        ([] ++ (⟨"h", "1.2.3.4"⟩ : Device) :: [⟨"g", "5.6.7.8"⟩]) "example.com" none =
      (some (.providerRejected (some "-15") (some "domain not exist")),
       Call.listRecords "example.com" none ::
         ([] ++ [Call.create "1.2.3.4" "example.com" "h"])) :=
  c6_fail_fast_write c6Env "example.com" none [] [] [⟨"g", "5.6.7.8"⟩] ⟨"h", "1.2.3.4"⟩
    (.providerRejected (some "-15") (some "domain not exist"))
    [] [Call.create "1.2.3.4" "example.com" "h"] rfl rfl rfl

/-- Claim C7: fail-fast before any write — two independent conditionals:
whenever the inventory fetch errors, `main` reports that error with zero
DNS calls, for every DNS environment (including one whose `Record.List`
would succeed); and whenever the `Record.List` fetch errors, `sync`
returns that error with no Endpoint processed (its only DNS call is the
list request; no create or update occurs). -/
theorem c7_fail_fast_before_writes (tailnet : String) (tsResp : HttpOutcome TsBody)
    (env : DnsEnv) (devices : List Device) (domain : String) (subDomain : Option String)
    (e1 e2 : Err) :
    (get_tailscale_devices tailnet tsResp = .error e1 →
      main tailnet tsResp env domain subDomain = (some e1, [])) ∧
    (get_domain_records env.listResponse = .error e2 →
      sync_devices_to_domain env devices domain subDomain =
        (some e2, [Call.listRecords domain subDomain])) := by
  constructor
  · intro h1
    simp [main, h1]
  · intro h2
    simp [sync_devices_to_domain, h2]

/-- A DNS environment whose `Record.List` request fails at the transport
level. -/
def c7Env : DnsEnv where
  listResponse := .transportError "conn refused"
  createResponse := fun _ _ _ => .ok ⟨some "1", none, []⟩
  modifyResponse := fun _ _ _ _ => .ok ⟨some "1", none, []⟩

/-- A DNS environment all of whose requests succeed, so that the
inventory-error half of C7 is exercised with a working DNS side. -/
def c7OkEnv : DnsEnv where
  listResponse := .ok ⟨some "1", none, []⟩
  createResponse := fun _ _ _ => .ok ⟨some "1", none, []⟩
  modifyResponse := fun _ _ _ _ => .ok ⟨some "1", none, []⟩

/-- Witness for C7 at concrete inputs: a failing inventory fetch yields
zero DNS calls even though the DNS environment would answer every request
successfully, and separately a failing record-list fetch stops the sync
before any device. -/
theorem c7_witness :
    main "alice@gmail.com" (.transportError "timeout") c7OkEnv "example.com" none =
        (some (.tailscaleTransport "timeout"), []) ∧
      sync_devices_to_domain c7Env [⟨"h", "1.2.3.4"⟩] "example.com" none =
        (some (.dnspodTransport "conn refused"), [Call.listRecords "example.com" none]) :=
  ⟨(c7_fail_fast_before_writes "alice@gmail.com" (.transportError "timeout") c7OkEnv
      [] "example.com" none (.tailscaleTransport "timeout")
      (.providerRejected none none)).1 rfl,
   (c7_fail_fast_before_writes "alice@gmail.com" (.transportError "timeout") c7Env
      [⟨"h", "1.2.3.4"⟩] "example.com" none (.tailscaleTransport "timeout")
      (.dnspodTransport "conn refused")).2 rfl⟩

/-- Claim C8: every DNSPod operation — list, create, update — turns a
decoded envelope whose status code is not the success code `'1'` into a
provider-rejection error carrying the envelope's code and message, and
returns no success value. -/
theorem c8_provider_rejected (envl : DnspodEnvelope) (code : String)
    (hc : envl.statusCode = some code) (h1 : code ≠ "1") :
    get_domain_records (.ok envl) =
        .error (.providerRejected envl.statusCode envl.statusMessage) ∧
      add_record_a (.ok envl) =
        some (.providerRejected envl.statusCode envl.statusMessage) ∧
      modify_record_a (.ok envl) =
        some (.providerRejected envl.statusCode envl.statusMessage) := by
  have hne : ¬ envl.statusCode = some "1" := by
    rw [hc]
    simp [h1]
  refine ⟨?_, ?_, ?_⟩ <;>
    simp [get_domain_records, add_record_a, modify_record_a, dnspodRequest, hne]

/-- Witness for C8 at a concrete envelope: status code `'6'` with a
message is rejected by all three operations. -/
theorem c8_witness :
    get_domain_records (.ok ⟨some "6", some "bad domain", []⟩) =
        .error (.providerRejected (some "6") (some "bad domain")) ∧
      add_record_a (.ok ⟨some "6", some "bad domain", []⟩) =
        some (.providerRejected (some "6") (some "bad domain")) ∧
      modify_record_a (.ok ⟨some "6", some "bad domain", []⟩) =
        some (.providerRejected (some "6") (some "bad domain")) :=
  c8_provider_rejected ⟨some "6", some "bad domain", []⟩ "6" rfl (by decide)

/-- Claim C10: a decoded inventory body without a `devices` key yields a
successful empty device list (not a decode error), and `sync` over the
empty list makes only the `Record.List` call — zero creates and zero
updates — whatever the DNS environment answers. -/
theorem c10_missing_devices_key (tailnet : String) (env : DnsEnv) (domain : String)
    (subDomain : Option String) :
    get_tailscale_devices tailnet (.ok ⟨none⟩) = .ok [] ∧
      (sync_devices_to_domain env [] domain subDomain).2 =
        [Call.listRecords domain subDomain] := by
  constructor
  · rfl
  · cases hge : get_domain_records env.listResponse <;>
      simp [sync_devices_to_domain, hge, syncLoop]

/-- Scanning a string that ends with the (non-empty) pattern and contains
no other occurrence of the pattern removes exactly that final occurrence. -/
lemma pyReplaceFuel_strip (pat : List Char) (hpat : pat ≠ []) :
    ∀ (host : List Char) (fuel : Nat), (host ++ pat).length ≤ fuel →
      ¬ pat <:+: (host ++ pat.dropLast) →
      pyReplaceFuel pat [] fuel (host ++ pat) = host := by
  obtain ⟨q, qs, rfl⟩ := List.exists_cons_of_ne_nil hpat
  intro host
  induction host with
  | nil =>
    intro fuel hfuel hinf
    cases fuel with
    | zero => simp at hfuel
    | succ f =>
      simp only [List.nil_append]
      have hcond : (q :: qs : List Char) ≠ [] ∧ (q :: qs) <+: (q :: qs) :=
        ⟨by simp, List.prefix_refl _⟩
      simp only [pyReplaceFuel]
      rw [if_pos hcond]
      simp [List.drop_length, pyReplaceFuel_nil]
  | cons c host ih =>
    intro fuel hfuel hinf
    cases fuel with
    | zero => simp at hfuel
    | succ f =>
      have hstep : (c :: host) ++ (q :: qs) = c :: (host ++ (q :: qs)) := rfl
      rw [hstep]
      simp only [pyReplaceFuel]
      have hcond : ¬ ((q :: qs : List Char) ≠ [] ∧ (q :: qs) <+: c :: (host ++ (q :: qs))) := by
        rintro ⟨-, hpre⟩
        obtain ⟨t, ht⟩ := hpre
        have htne : t ≠ [] := by
          intro h0
          subst h0
          have hlen := congrArg List.length ht
          simp only [List.append_nil, List.length_cons, List.length_append] at hlen
          omega
        obtain ⟨b, t2, rfl⟩ := List.exists_cons_of_ne_nil htne
        have hdl := congrArg List.dropLast ht
        rw [List.dropLast_append_cons] at hdl
        have hrhs : (c :: (host ++ (q :: qs))).dropLast = (c :: host) ++ (q :: qs).dropLast := by
          have hassoc : c :: (host ++ (q :: qs)) = (c :: host) ++ (q :: qs) := rfl
          rw [hassoc, List.dropLast_append_cons]
        rw [hrhs] at hdl
        exact hinf (List.IsPrefix.isInfix ⟨(b :: t2).dropLast, hdl⟩)
      rw [if_neg hcond]
      have htail : ¬ (q :: qs) <:+: (host ++ (q :: qs).dropLast) := by
        intro hx
        exact hinf (List.infix_cons hx)
      have hlen2 : (host ++ (q :: qs)).length ≤ f := by
        simp only [List.length_append, List.length_cons] at hfuel ⊢
        omega
      rw [ih f hlen2 htail]

/-- Claim C9 counterexample: with tailnet `com` the raw device name
`my.comp.com` is normalized to `myp` — Python `replace` removes the inner
occurrence of `.com` as well — while stripping only the trailing
`.` + domain suffix would give `my.comp`. -/
theorem c9_counterexample :
    get_tailscale_devices "com" (.ok ⟨some [⟨"my.comp.com", ["100.64.0.7"]⟩]⟩) =
        .ok [⟨"myp", "100.64.0.7"⟩] ∧
      specStripTrailingSuffix (tailnetDomain "com") "my.comp.com" = "my.comp" ∧
      ("myp" : String) ≠ "my.comp" :=
  ⟨rfl, rfl, by decide⟩

/-- Claim C9 as amended: the inventory fetch removes every occurrence of
`.` + domain (domain being the tailnet with `@` replaced by `.`) from the
raw name; when the pattern occurs nowhere except as the trailing suffix,
this coincides with stripping that suffix and returns the rest of the name
unchanged. -/
theorem c9_amended_strip_suffix (tailnet host : String)
    (h : ¬ ("." ++ tailnetDomain tailnet).data <:+:
        (host.data ++ ("." ++ tailnetDomain tailnet).data.dropLast)) :
    normalizeDeviceName tailnet (host ++ "." ++ tailnetDomain tailnet) = host ∧
      specStripTrailingSuffix (tailnetDomain tailnet)
        (host ++ "." ++ tailnetDomain tailnet) = host := by
  have hpat : ("." ++ tailnetDomain tailnet).data ≠ [] := by
    simp [String.data_append]
  have hraw : (host ++ "." ++ tailnetDomain tailnet).data
      = host.data ++ ("." ++ tailnetDomain tailnet).data := by
    simp [String.data_append]
  constructor
  · unfold normalizeDeviceName pyReplace pyReplaceL
    have hempty : ("" : String).data = [] := rfl
    rw [hempty, if_neg hpat, hraw]
    rw [pyReplaceFuel_strip _ hpat host.data _ (le_refl _) h]
  · simp only [specStripTrailingSuffix]
    rw [hraw]
    rw [if_pos (List.suffix_append host.data ("." ++ tailnetDomain tailnet).data)]
    have hlen : (host.data ++ ("." ++ tailnetDomain tailnet).data).length
        - ("." ++ tailnetDomain tailnet).data.length = host.data.length := by
      simp [List.length_append]
    rw [hlen, List.take_left]

/-- Witness for the amended C9 at a concrete input: with tailnet `t` the
raw name `ab.t` is normalized to `ab`, agreeing with suffix stripping. -/
theorem c9_amended_witness :
    normalizeDeviceName "t" ("ab" ++ "." ++ tailnetDomain "t") = "ab" ∧
      specStripTrailingSuffix (tailnetDomain "t") ("ab" ++ "." ++ tailnetDomain "t") = "ab" :=
  c9_amended_strip_suffix "t" "ab" (by decide)

end TsDnsSync
